import Mathlib

/-!
Shallow embedding of the inventory/POS subsystem of a small-business
management application (Django project: `inventory` app).

The relational store is modelled as explicit state:
  * the `Product` table is a `List Product`;
  * money (`DecimalField`) is `ℚ`;
  * integer columns are `ℤ`.

Views are modelled as pure functions from state (plus request data) to
state and a response.  `transaction.atomic` is modelled by returning the
*original* state whenever the view ends in an exception path: either every
write commits or none does.
-/

/-- A row of the `Product` table (`inventory/models.py`, class `Product`).
Only the columns the verified operations touch are carried. -/
structure Product where
  id : Nat
  name : String
  price : ℚ
  stock_quantity : Int
  is_active : Bool
  barcode : Option String
deriving Repr, DecidableEq

/-- `Product.objects.get(id=pid)` / `.filter(id=pid).first()`: the row of the
product table with the given primary key. -/
def lookupProduct (db : List Product) (pid : Nat) : Option Product :=
  db.find? (fun p => p.id == pid)

/-- The stock of product `pid` in `db`, when the product exists. -/
def lookupStock (db : List Product) (pid : Nat) : Option Int :=
  (lookupProduct db pid).map Product.stock_quantity

/-- `product.stock_quantity += delta; product.save()`: write back the row
with its stock changed by `delta`. -/
def updateStock (db : List Product) (pid : Nat) (delta : Int) : List Product :=
  db.map fun p =>
    if p.id = pid then { p with stock_quantity := p.stock_quantity + delta } else p

/-! ### `SaleItem.save` / `SaleItem.delete` (inventory/models.py, lines 103-122)

`SaleItem.save` resolves the unit price (`if not self.unit_price:
self.unit_price = self.product.price` - Python truthiness: `None` and
`Decimal(0)` are both falsy), recomputes `subtotal = quantity * unit_price`,
and mutates the owning product's stock: on insert (`self.pk` unset) it
subtracts `quantity`; on update it subtracts the delta against the stored
row.  `SaleItem.delete` adds `quantity` back. -/

/-- Unit-price resolution performed by `SaleItem.save`: a missing (`none`)
or zero unit price is replaced by the product's current price. -/
def saleItemResolveUnitPrice (given : Option ℚ) (productPrice : ℚ) : ℚ :=
  match given with
  | none => productPrice
  | some u => if u = 0 then productPrice else u

/-- `subtotal = self.quantity * self.unit_price` after resolution. -/
def saleItemSubtotal (given : Option ℚ) (productPrice : ℚ) (quantity : Int) : ℚ :=
  quantity * saleItemResolveUnitPrice given productPrice

/-- Stock effect of `SaleItem.save` on the owning product: `original` is
`some oq` when the row already existed with quantity `oq` (update path),
`none` on first insert. -/
def saleItemSaveStock (original : Option Int) (quantity stock : Int) : Int :=
  match original with
  | some oq => stock - (quantity - oq)
  | none => stock - quantity

/-- Stock effect of `SaleItem.delete` on the owning product. -/
def saleItemDeleteStock (quantity stock : Int) : Int :=
  stock + quantity

/-! ### The POS view (inventory/views.py, `pos_view`, lines 176-231) -/

/-- One entry of the POSTed `items[]` list, after the view's parsing
(`product_id = int(...)`, `quantity = int(...)`). -/
structure SaleLine where
  product_id : Nat
  quantity : Int
deriving Repr, DecidableEq

/-- A persisted `SaleItem` row as `pos_view` creates it
(`unit_price=product.price`, `subtotal=quantity * product.price`). -/
structure SaleItemRec where
  product_id : Nat
  quantity : Int
  unit_price : ℚ
  subtotal : ℚ
deriving Repr, DecidableEq

/-- A persisted `Sale` row together with its `SaleItem` rows. -/
structure SaleRec where
  total_amount : ℚ
  items : List SaleItemRec
deriving Repr, DecidableEq

/-- Response of the POS endpoint: `JsonResponse` with either
`status: success` (carrying the recorded sale's total) or
`status: error` with an HTTP status code and message. -/
inductive PosResponse where
  | success (total_amount : ℚ)
  | err (httpStatus : Nat) (message : String)
deriving Repr, DecidableEq

/-- The per-line loop of `pos_view`.  For each line it re-reads the product,
rejects non-positive quantities and insufficient stock, creates the
`SaleItem` (whose custom `save` decrements the product's stock and saves),
accumulates `quantity * product.price` into the running total, and then the
view decrements `product.stock_quantity` once more on the same in-memory
object and saves again.  `seen` tracks products already on this sale: the
`unique_together ('sale', 'product')` constraint makes a duplicate insert
raise `IntegrityError`, which the generic handler turns into a 500. -/
def posProcessLines :
    List Product → List SaleLine → List Nat → ℚ → List SaleItemRec →
      Except (Nat × String) (List Product × ℚ × List SaleItemRec)
  | db, [], _, total, items => .ok (db, total, items)
  | db, line :: rest, seen, total, items =>
    match lookupProduct db line.product_id with
    | none => .error (400, "One or more products not found.")
    | some product =>
      if line.quantity ≤ 0 then
        .error (400, "Quantity must be positive.")
      else if product.stock_quantity < line.quantity then
        .error (400, "Not enough stock for " ++ product.name)
      else if line.product_id ∈ seen then
        .error (500, "An error occurred while processing the sale.")
      else
        let afterModelSave := updateStock db line.product_id (-line.quantity)
        let afterView := updateStock afterModelSave line.product_id (-line.quantity)
        posProcessLines afterView rest (line.product_id :: seen)
          (total + line.quantity * product.price)
          (items ++ [⟨line.product_id, line.quantity, product.price,
            line.quantity * product.price⟩])

/-- `pos_view` on a POST request: runs the whole sale inside
`transaction.atomic()`, so on any error path both tables are returned
unchanged (rollback) together with the error `JsonResponse`; on success the
mutated product table and the new `Sale` row (total set after the loop) are
committed and the response carries `sale.total_amount`. -/
def pos_view (db : List Product) (sales : List SaleRec) (lines : List SaleLine) :
    (List Product × List SaleRec) × PosResponse :=
  match posProcessLines db lines [] 0 [] with
  | .ok (db', total, items) => ((db', sales ++ [⟨total, items⟩]), .success total)
  | .error (st, msg) => ((db, sales), .err st msg)

/-- A sale line the view's validation rejects against database `db`:
non-positive quantity, missing product, or quantity exceeding the
product's current stock. -/
def BadLine (db : List Product) (l : SaleLine) : Prop :=
  l.quantity ≤ 0 ∨ lookupProduct db l.product_id = none ∨
    ∃ p, lookupProduct db l.product_id = some p ∧ p.stock_quantity < l.quantity

/-! ### Purchase-order receipt (inventory/views.py, `receive_purchase_order`,
lines 558-581) -/

/-- A row of `PurchaseOrderItem` (quantity ordered of a product).  The
`unique_together ('purchase_order', 'product')` constraint means the items
of one order reference pairwise distinct products. -/
structure POItem where
  product_id : Nat
  quantity : Int
deriving Repr, DecidableEq

/-- A `PurchaseOrder` row with its items
(`purchase_order.purchaseorderitem_set.all()`). -/
structure PurchaseOrder where
  status : String
  items : List POItem
deriving Repr, DecidableEq

/-- The user-facing message the view leaves before redirecting. -/
inductive ReceiveMessage where
  | info (msg : String)
  | success (msg : String)
deriving Repr, DecidableEq

/-- The receipt loop: `for item in purchase_order.purchaseorderitem_set.all():
product.stock_quantity += item.quantity; product.save()`. -/
def receiveItems (db : List Product) : List POItem → List Product
  | [] => db
  | item :: rest => receiveItems (updateStock db item.product_id item.quantity) rest

/-- `receive_purchase_order` on a POST: if the order's status is already
`Received` it only reports "already been received"; otherwise, inside one
transaction, it adds each item's quantity to the linked product's stock and
sets the status to `Received`. -/
def receive_purchase_order (db : List Product) (po : PurchaseOrder) :
    List Product × PurchaseOrder × ReceiveMessage :=
  if po.status = "Received" then
    (db, po, .info "has already been received")
  else
    (receiveItems db po.items,
     { po with status := "Received" },
     .success "successfully received and stock updated")

/-! ### Stock adjustment (inventory/views.py, `create_stock_adjustment_view`,
lines 587-611) -/

/-- A `StockAdjustment` row (inventory/models.py).  The form
(`StockAdjustmentForm`) exposes `quantity_change` as a plain
`IntegerField`: any signed integer validates. -/
structure StockAdjustment where
  product_id : Nat
  quantity_change : Int
  adjustment_type : String
  notes : String
deriving Repr, DecidableEq

/-- `create_stock_adjustment_view` on a valid POST: persists the adjustment
record and then adds `quantity_change` to the product's stock.  No floor is
imposed on the resulting stock. -/
def create_stock_adjustment_view (db : List Product)
    (adjustments : List StockAdjustment) (adj : StockAdjustment) :
    List Product × List StockAdjustment :=
  (updateStock db adj.product_id adj.quantity_change, adjustments ++ [adj])

/-! ### Date-range resolution (inventory/views.py,
`get_filtered_sales_query`, lines 77-126)

Python `datetime.date` values are embedded as proleptic-Gregorian
year/month/day triples; `date - timedelta(days=n)` is `subDays`. -/

/-- A Python `datetime.date` value. -/
structure PyDate where
  year : Int
  month : Nat
  day : Nat
deriving Repr, DecidableEq

/-- Gregorian leap-year rule (as implemented by Python's `datetime`). -/
def isLeapYear (y : Int) : Bool :=
  y % 4 == 0 && (y % 100 != 0 || y % 400 == 0)

/-- Number of days in month `m` of year `y`. -/
def daysInMonth (y : Int) (m : Nat) : Nat :=
  if m = 2 then (if isLeapYear y then 29 else 28)
  else if m = 4 ∨ m = 6 ∨ m = 9 ∨ m = 11 then 30
  else 31

/-- A calendar-valid date, as `datetime.date` enforces on construction. -/
abbrev PyDate.Valid (d : PyDate) : Prop :=
  1 ≤ d.month ∧ d.month ≤ 12 ∧ 1 ≤ d.day ∧ d.day ≤ daysInMonth d.year d.month

/-- `d - timedelta(days=1)`. -/
def predDay (d : PyDate) : PyDate :=
  if 1 < d.day then { d with day := d.day - 1 }
  else if 1 < d.month then
    { year := d.year, month := d.month - 1, day := daysInMonth d.year (d.month - 1) }
  else { year := d.year - 1, month := 12, day := 31 }

/-- `d - timedelta(days=n)`. -/
def subDays (d : PyDate) : Nat → PyDate
  | 0 => d
  | n + 1 => subDays (predDay d) n

/-- `datetime.min.date()`, used by the `all_time` branch. -/
def datetimeMinDate : PyDate := ⟨1, 1, 1⟩

/-- The named-period dispatch of `get_filtered_sales_query`: `start_date`
and `end_date` are initialised to the last-30-days window and overwritten
only when `period` matches one of the recognised names, so an unrecognised
period keeps the default window. -/
def resolvePeriod (today : PyDate) (period : String) : PyDate × PyDate :=
  if period = "today" then (today, today)
  else if period = "last_7_days" then (subDays today 6, today)
  else if period = "last_30_days" then (subDays today 29, today)
  else if period = "this_month" then ({ today with day := 1 }, today)
  else if period = "last_month" then
    let first_day_current_month := { today with day := 1 }
    let e := predDay first_day_current_month
    ({ e with day := 1 }, e)
  else if period = "this_year" then ({ today with month := 1, day := 1 }, today)
  else if period = "all_time" then (datetimeMinDate, today)
  else (subDays today 29, today)

/-- Result of the date-filter part of `get_filtered_sales_query`: the
resolved range plus the user-visible `messages.error` warnings collected
along the way (the request itself is never aborted). -/
structure DateFilterResult where
  start_date : PyDate
  end_date : PyDate
  warnings : List String
deriving Repr, DecidableEq

/-- Date-range logic of `get_filtered_sales_query`.  `period` is the GET
`period` parameter (`none` when absent; the view defaults it to
`last_30_days`).  `startParam` and `endParam` model the GET `start_date` /
`end_date` strings together with the outcome of
`datetime.strptime(s, "%Y-%m-%d")`: `none` when the parameter is absent,
`some (some d)` when it parses to the date `d`, and `some none` when
parsing raises `ValueError` — in which case the view records an error
message and keeps the previously resolved bound. -/
def get_filtered_sales_query (today : PyDate) (period : Option String)
    (startParam endParam : Option (Option PyDate)) : DateFilterResult :=
  let resolved := resolvePeriod today (period.getD "last_30_days")
  let startPart : PyDate × List String :=
    match startParam with
    | none => (resolved.1, [])
    | some (some d) => (d, [])
    | some none => (resolved.1, ["Invalid start date format. Please use YYYY-MM-DD."])
  let endPart : PyDate × List String :=
    match endParam with
    | none => (resolved.2, [])
    | some (some d) => (d, [])
    | some none => (resolved.2, ["Invalid end date format. Please use YYYY-MM-DD."])
  ⟨startPart.1, endPart.1, startPart.2 ++ endPart.2⟩

/-! ### Barcode lookup (inventory/views.py, `get_product_by_barcode`,
lines 268-290) -/

/-- The JSON responses of the barcode endpoint: on success the payload is
`{id, name, price, stock_quantity, barcode}`; every other outcome is a
structured error object with an HTTP status code. -/
inductive BarcodeResponse where
  | success (id : Nat) (name : String) (price : ℚ) (stock_quantity : Int)
      (barcode : String)
  | err (httpStatus : Nat) (message : String)
deriving Repr, DecidableEq

/-- `get_product_by_barcode` on a GET request.  `param` is
`request.GET.get('barcode', None)`; an absent or empty string is falsy and
yields a 400.  Otherwise the view runs
`Product.objects.get(barcode=barcode, is_active=True, stock_quantity__gt=0)`
and returns the product payload, or a 404 when no such row exists. -/
def get_product_by_barcode (db : List Product) (param : Option String) :
    BarcodeResponse :=
  match param with
  | none => .err 400 "Barcode not provided."
  | some b =>
    if b = "" then .err 400 "Barcode not provided."
    else
      match db.find? (fun p =>
          p.barcode == some b && p.is_active && decide (0 < p.stock_quantity)) with
      | some p => .success p.id p.name p.price p.stock_quantity b
      | none => .err 404 "Product not found or out of stock."

/-- The filter of the barcode endpoint's query, as a predicate: an active
product with positive stock carrying barcode `b`. -/
def barcodeMatch (b : String) (p : Product) : Prop :=
  p.barcode = some b ∧ p.is_active = true ∧ 0 < p.stock_quantity

/-- Modelled from the spec (for comparison with `resolvePeriod`): the spec's
wording of the `last_month` range, "[first day of previous month, last day
of previous month]". -/
def specLastMonth (today : PyDate) : PyDate × PyDate :=
  let y : Int := if today.month = 1 then today.year - 1 else today.year
  let m : Nat := if today.month = 1 then 12 else today.month - 1
  (⟨y, m, 1⟩, ⟨y, m, daysInMonth y m⟩)

/-! ## Helper lemmas -/

/-- Changing one product's stock leaves every row's identity intact; a
lookup sees the written stock exactly on the targeted id. -/
theorem lookupProduct_updateStock (db : List Product) (pid qid : Nat) (delta : Int) :
    lookupProduct (updateStock db pid delta) qid =
      (lookupProduct db qid).map (fun p =>
        if p.id = pid then { p with stock_quantity := p.stock_quantity + delta } else p) := by
  induction db with
  | nil => rfl
  | cons p rest ih =>
    have hid : (if p.id = pid then
        { p with stock_quantity := p.stock_quantity + delta } else p).id = p.id := by
      by_cases hp : p.id = pid <;> simp [hp]
    by_cases hq : p.id = qid
    · rw [lookupProduct, updateStock, List.map_cons,
        List.find?_cons_of_pos _ (by simpa [hid] using hq),
        lookupProduct, List.find?_cons_of_pos _ (by simpa using hq)]
      rfl
    · rw [lookupProduct, updateStock, List.map_cons,
        List.find?_cons_of_neg _ (by simpa [hid] using hq),
        lookupProduct, List.find?_cons_of_neg _ (by simpa using hq)]
      exact ih

/-- A lookup of an untouched product id is unchanged by `updateStock`. -/
theorem lookupStock_updateStock_ne (db : List Product) {pid qid : Nat} (delta : Int)
    (h : qid ≠ pid) :
    lookupStock (updateStock db pid delta) qid = lookupStock db qid := by
  rw [lookupStock, lookupProduct_updateStock]
  cases hq : lookupProduct db qid with
  | none => simp [lookupStock, hq]
  | some p =>
    have hpq : p.id = qid := by
      have := List.find?_some hq
      simpa using this
    simp [lookupStock, hq, hpq, h]

/-- A lookup of the written product id sees the stock changed by `delta`. -/
theorem lookupStock_updateStock_eq (db : List Product) (pid : Nat) (delta : Int) :
    lookupStock (updateStock db pid delta) pid =
      (lookupStock db pid).map (· + delta) := by
  rw [lookupStock, lookupProduct_updateStock]
  cases hq : lookupProduct db pid with
  | none => simp [lookupStock, hq]
  | some p =>
    have hpq : p.id = pid := by
      have := List.find?_some hq
      simpa using this
    simp [lookupStock, hq, hpq]

/-- The receipt loop does not touch products no item refers to. -/
theorem receiveItems_lookup_of_notMem (items : List POItem) (db : List Product)
    (pid : Nat) (h : pid ∉ items.map POItem.product_id) :
    lookupStock (receiveItems db items) pid = lookupStock db pid := by
  induction items generalizing db with
  | nil => rfl
  | cons item rest ih =>
    simp only [List.map_cons, List.mem_cons, not_or] at h
    rw [receiveItems, ih _ h.2, lookupStock_updateStock_ne _ _ h.1]

/-- With the order's items referring to pairwise distinct products (the
`unique_together` constraint), the receipt loop adds each item's quantity
to exactly its own product's stock. -/
theorem receiveItems_lookup_of_mem (items : List POItem) (db : List Product)
    (hnd : (items.map POItem.product_id).Nodup) :
    ∀ item ∈ items,
      lookupStock (receiveItems db items) item.product_id =
        (lookupStock db item.product_id).map (· + item.quantity) := by
  induction items generalizing db with
  | nil => intro item h; cases h
  | cons hd rest ih =>
    intro item hmem
    rw [List.map_cons, List.nodup_cons] at hnd
    rcases List.mem_cons.mp hmem with rfl | hmem
    · rw [receiveItems, receiveItems_lookup_of_notMem _ _ _ hnd.1,
        lookupStock_updateStock_eq]
    · have hne : item.product_id ≠ hd.product_id := by
        intro he
        exact hnd.1 (he ▸ List.mem_map_of_mem POItem.product_id hmem)
      rw [receiveItems, ih _ hnd.2 item hmem, lookupStock_updateStock_ne _ _ hne]

/-- A line the validation rejects keeps being rejected after stock has only
been lowered (`delta ≤ 0`), as happens while earlier lines are processed. -/
theorem badLine_updateStock {db : List Product} {l : SaleLine} (pid : Nat)
    {delta : Int} (hd : delta ≤ 0) (h : BadLine db l) :
    BadLine (updateStock db pid delta) l := by
  rcases h with hq | hnone | ⟨p, hp, hs⟩
  · exact Or.inl hq
  · refine Or.inr (Or.inl ?_)
    rw [lookupProduct_updateStock, hnone]
    rfl
  · refine Or.inr (Or.inr ?_)
    refine ⟨if p.id = pid then { p with stock_quantity := p.stock_quantity + delta } else p,
      ?_, ?_⟩
    · rw [lookupProduct_updateStock, hp]
      rfl
    · by_cases hip : p.id = pid <;> simp [hip] <;> omega

/-- A request containing a line the validation rejects makes the per-line
loop end in an exception; moreover, when the request's lines refer to
pairwise distinct products (so no `IntegrityError` can pre-empt the
validation), the exception is one of the 400 validation errors. -/
theorem posProcessLines_error_of_bad :
    ∀ (lines : List SaleLine) (db : List Product) (seen : List Nat) (total : ℚ)
      (items : List SaleItemRec),
      (∃ l ∈ lines, BadLine db l) →
      ∃ st msg, posProcessLines db lines seen total items = .error (st, msg) ∧
        ((lines.map SaleLine.product_id).Nodup →
          (∀ l ∈ lines, l.product_id ∉ seen) → st = 400) := by
  intro lines
  induction lines with
  | nil =>
    intro db seen total items h
    obtain ⟨l, hl, -⟩ := h
    cases hl
  | cons line rest ih =>
    intro db seen total items h
    cases hfind : lookupProduct db line.product_id with
    | none =>
      simp only [posProcessLines, hfind]
      exact ⟨400, _, rfl, fun _ _ => rfl⟩
    | some product =>
      simp only [posProcessLines, hfind]
      by_cases hq : line.quantity ≤ 0
      · exact ⟨400, _, by rw [if_pos hq], fun _ _ => rfl⟩
      rw [if_neg hq]
      by_cases hs : product.stock_quantity < line.quantity
      · exact ⟨400, _, by rw [if_pos hs], fun _ _ => rfl⟩
      rw [if_neg hs]
      by_cases hdup : line.product_id ∈ seen
      · refine ⟨500, _, by rw [if_pos hdup], fun _ hseen => ?_⟩
        exact absurd hdup (hseen line (List.mem_cons_self line rest))
      rw [if_neg hdup]
      have hline_ok : ¬ BadLine db line := by
        rintro (h1 | h2 | ⟨p, hp, hps⟩)
        · exact hq h1
        · rw [hfind] at h2; cases h2
        · rw [hfind] at hp
          cases hp
          exact hs hps
      have hbad_rest : ∃ l ∈ rest, BadLine db l := by
        obtain ⟨l, hl, hbad⟩ := h
        rcases List.mem_cons.mp hl with rfl | hl
        · exact absurd hbad hline_ok
        · exact ⟨l, hl, hbad⟩
      have hq' : -line.quantity ≤ 0 := by omega
      have hbad' : ∃ l ∈ rest,
          BadLine (updateStock (updateStock db line.product_id (-line.quantity))
            line.product_id (-line.quantity)) l := by
        obtain ⟨l, hl, hbad⟩ := hbad_rest
        exact ⟨l, hl, badLine_updateStock _ hq' (badLine_updateStock _ hq' hbad)⟩
      obtain ⟨st, msg, heq, himp⟩ := ih _ _ _ _ hbad'
      refine ⟨st, msg, heq, fun hnd hseen => ?_⟩
      rw [List.map_cons, List.nodup_cons] at hnd
      refine himp hnd.2 fun l hl => ?_
      intro hmem
      rcases List.mem_cons.mp hmem with hle | hle
      · exact hnd.1 (hle ▸ List.mem_map_of_mem SaleLine.product_id hl)
      · exact hseen l (List.mem_cons_of_mem line hl) hle

/-- An unrecognised period name (such as `custom`) keeps the initialised
default window of the last 30 days. -/
theorem resolvePeriod_custom (today : PyDate) :
    resolvePeriod today "custom" = (subDays today 29, today) := by
  simp [resolvePeriod]

/-! ## Claims -/

/-- C1: the claim states that a successful POS sale decrements each sold
product's stock by exactly the sold quantity (spec example:
stock 10, price 1000, one line of quantity 3 gives `total_amount` 3000 and
stock 7).  The code instead decrements twice per line - once inside
`SaleItem.save` and once again in `pos_view` itself - so the example sale
succeeds with the claimed total 3000 but leaves stock 4; a sale of the
whole stock (5 of 5) even succeeds and leaves stock -5, defeating the
view's own insufficient-stock check. -/
theorem C1_pos_sale_stock_double_decrement :
    pos_view [⟨1, "P", 1000, 10, true, none⟩] [] [⟨1, 3⟩] =
      (([⟨1, "P", 1000, 4, true, none⟩], [⟨3000, [⟨1, 3, 1000, 3000⟩]⟩]),
        .success 3000) ∧
    pos_view [⟨1, "P", 1000, 5, true, none⟩] [] [⟨1, 5⟩] =
      (([⟨1, "P", 1000, -5, true, none⟩], [⟨5000, [⟨1, 5, 1000, 5000⟩]⟩]),
        .success 5000) := by
  constructor <;>
    · simp [pos_view, posProcessLines, lookupProduct, updateStock, List.find?]
      norm_num

/-- C2: a POS request containing a line whose quantity is non-positive or
exceeds the product's current stock, or whose product does not exist, is
rejected with an error response while the product table and the sales
table are returned unchanged (full rollback); when the request's lines
name pairwise distinct products the error is a 400 validation error. -/
theorem C2_invalid_sale_rolls_back (db : List Product) (sales : List SaleRec)
    (lines : List SaleLine) (h : ∃ l ∈ lines, BadLine db l) :
    ∃ st msg, pos_view db sales lines = ((db, sales), .err st msg) ∧
      ((lines.map SaleLine.product_id).Nodup → st = 400) := by
  obtain ⟨st, msg, heq, himp⟩ := posProcessLines_error_of_bad lines db [] 0 [] h
  refine ⟨st, msg, ?_, fun hnd => himp hnd fun l _ hmem => (List.not_mem_nil _ hmem)⟩
  rw [pos_view, heq]

/-- C2 witness: a one-line request asking for 5 units of a product with
stock 2 is rejected with a 400 error and leaves both tables unchanged. -/
theorem C2_invalid_sale_rolls_back_witness :
    ∃ st msg,
      pos_view [⟨1, "P", 1000, 2, true, none⟩] [] [⟨1, 5⟩] =
        (([⟨1, "P", 1000, 2, true, none⟩], []), .err st msg) ∧
      ((([⟨1, 5⟩] : List SaleLine).map SaleLine.product_id).Nodup → st = 400) := by
  obtain ⟨st, msg, heq, himp⟩ :=
    C2_invalid_sale_rolls_back [⟨1, "P", 1000, 2, true, none⟩] [] [⟨1, 5⟩]
      ⟨⟨1, 5⟩, by simp,
        Or.inr (Or.inr ⟨⟨1, "P", 1000, 2, true, none⟩, rfl, by norm_num⟩)⟩
  exact ⟨st, msg, heq, himp⟩

/-- C3: calling `receive_purchase_order` a second time on the result of a
first call is a no-op: the product table and the order are returned exactly
as the first call left them, with the "has already been received" notice -
so receiving the same order twice increments stock only once. -/
theorem C3_receive_twice_noop (db : List Product) (po : PurchaseOrder) :
    receive_purchase_order (receive_purchase_order db po).1
        (receive_purchase_order db po).2.1 =
      ((receive_purchase_order db po).1, (receive_purchase_order db po).2.1,
        .info "has already been received") := by
  by_cases h : po.status = "Received" <;> simp [receive_purchase_order, h]

/-- C4: receiving a purchase order in any non-Received state sets its
status to Received and adds, for every item of the order, exactly the
ordered quantity to the linked product's stock. -/
theorem C4_receive_increments_stock (db : List Product) (po : PurchaseOrder)
    (hst : po.status ≠ "Received")
    (hnd : (po.items.map POItem.product_id).Nodup) :
    (receive_purchase_order db po).2.1.status = "Received" ∧
      ∀ item ∈ po.items,
        lookupStock (receive_purchase_order db po).1 item.product_id =
          (lookupStock db item.product_id).map (· + item.quantity) := by
  rw [receive_purchase_order, if_neg hst]
  exact ⟨rfl, receiveItems_lookup_of_mem po.items db hnd⟩

/-- C4 witness: receiving a Pending order for 5 units of product 1 (stock
10) and 7 units of product 2 (stock 3) marks it Received and moves the
stocks to 15 and 10. -/
theorem C4_receive_increments_stock_witness :
    (receive_purchase_order
        [⟨1, "P", 1000, 10, true, none⟩, ⟨2, "Q", 500, 3, true, none⟩]
        ⟨"Pending", [⟨1, 5⟩, ⟨2, 7⟩]⟩).2.1.status = "Received" ∧
      lookupStock (receive_purchase_order
        [⟨1, "P", 1000, 10, true, none⟩, ⟨2, "Q", 500, 3, true, none⟩]
        ⟨"Pending", [⟨1, 5⟩, ⟨2, 7⟩]⟩).1 2 =
        (lookupStock [⟨1, "P", 1000, 10, true, none⟩, ⟨2, "Q", 500, 3, true, none⟩] 2).map
          (· + 7) := by
  have h := C4_receive_increments_stock
    [⟨1, "P", 1000, 10, true, none⟩, ⟨2, "Q", 500, 3, true, none⟩]
    ⟨"Pending", [⟨1, 5⟩, ⟨2, 7⟩]⟩ (by decide) (by decide)
  exact ⟨h.1, h.2 ⟨2, 7⟩ (by decide)⟩

/-- C5: a stock adjustment persists the adjustment record and adds exactly
`quantity_change` (any signed integer) to the product's stock, with no
negative-stock guard: the result is `stock + quantity_change` even when
that is below zero. -/
theorem C5_adjustment_adds_delta (db : List Product)
    (adjustments : List StockAdjustment) (adj : StockAdjustment) (p : Product)
    (hp : lookupProduct db adj.product_id = some p) :
    lookupStock (create_stock_adjustment_view db adjustments adj).1 adj.product_id =
      some (p.stock_quantity + adj.quantity_change) ∧
    (create_stock_adjustment_view db adjustments adj).2 = adjustments ++ [adj] := by
  refine ⟨?_, rfl⟩
  rw [create_stock_adjustment_view, lookupStock_updateStock_eq, lookupStock, hp]
  rfl

/-- C5 witness: on stock 20, `quantity_change = -5` yields 15 and
`quantity_change = +5` yields 25; on stock 2, `quantity_change = -5`
yields -3 (below zero, no guard). -/
theorem C5_adjustment_adds_delta_witness :
    lookupStock (create_stock_adjustment_view [⟨1, "P", 1000, 20, true, none⟩] []
        ⟨1, -5, "Remove", ""⟩).1 1 = some 15 ∧
    lookupStock (create_stock_adjustment_view [⟨1, "P", 1000, 20, true, none⟩] []
        ⟨1, 5, "Add", ""⟩).1 1 = some 25 ∧
    lookupStock (create_stock_adjustment_view [⟨1, "P", 1000, 2, true, none⟩] []
        ⟨1, -5, "Remove", ""⟩).1 1 = some (-3) := by
  refine ⟨?_, ?_, ?_⟩
  · have h := (C5_adjustment_adds_delta [⟨1, "P", 1000, 20, true, none⟩] []
      ⟨1, -5, "Remove", ""⟩ ⟨1, "P", 1000, 20, true, none⟩ rfl).1
    simpa using h
  · have h := (C5_adjustment_adds_delta [⟨1, "P", 1000, 20, true, none⟩] []
      ⟨1, 5, "Add", ""⟩ ⟨1, "P", 1000, 20, true, none⟩ rfl).1
    simpa using h
  · have h := (C5_adjustment_adds_delta [⟨1, "P", 1000, 2, true, none⟩] []
      ⟨1, -5, "Remove", ""⟩ ⟨1, "P", 1000, 2, true, none⟩ rfl).1
    simpa using h

/-- C6: for every valid date `today`, the `last_month` period resolves to
the range from the first to the last day of the previous month,
as the spec words it (`specLastMonth`). -/
theorem C6_last_month_range (t : PyDate) (h : t.Valid) :
    resolvePeriod t "last_month" = specLastMonth t := by
  obtain ⟨h1, h2, h3, h4⟩ := h
  have hstep : resolvePeriod t "last_month" =
      (let first_day_current_month : PyDate := { t with day := 1 }
       let e := predDay first_day_current_month
       ({ e with day := 1 }, e)) := by
    simp [resolvePeriod]
  rw [hstep]
  by_cases hm : t.month = 1
  · simp only [predDay, specLastMonth, hm]
    norm_num [daysInMonth]
  · have hm1 : 1 < t.month := by omega
    simp only [predDay, specLastMonth]
    rw [if_neg (by norm_num), if_pos hm1, if_neg hm, if_neg hm]

/-- C6 witness: with today = 2024-03-15, `last_month` resolves to
[2024-02-01, 2024-02-29] (2024 is a leap year). -/
theorem C6_last_month_range_witness :
    resolvePeriod ⟨2024, 3, 15⟩ "last_month" = (⟨2024, 2, 1⟩, ⟨2024, 2, 29⟩) :=
  (C6_last_month_range ⟨2024, 3, 15⟩ (by decide)).trans (by decide)

/-- C7: creating a `SaleItem` subtracts its quantity from the product's
stock and deleting it adds the quantity back, so a create-then-delete round
trip leaves the stock unchanged. -/
theorem C7_delete_inverts_save (quantity stock : Int) :
    saleItemDeleteStock quantity (saleItemSaveStock none quantity stock) = stock := by
  rw [saleItemSaveStock, saleItemDeleteStock]
  omega

/-- C8 counterexample: the claim says a custom-range request with an
unparseable bound falls back to the default last-30-days range as a whole.
With today = 2024-03-15, an unparseable start string and an end string
parsing to 2020-01-01, the view does warn and leaves the start bound at the
default 2024-02-15, but honours the parsed end bound 2020-01-01 - so the
resulting range is not the default range [2024-02-15, 2024-03-15]. -/
theorem C8_parsed_bound_still_honored :
    (get_filtered_sales_query ⟨2024, 3, 15⟩ (some "custom") (some none)
        (some (some ⟨2020, 1, 1⟩))).warnings ≠ [] ∧
    (get_filtered_sales_query ⟨2024, 3, 15⟩ (some "custom") (some none)
        (some (some ⟨2020, 1, 1⟩))).start_date = subDays ⟨2024, 3, 15⟩ 29 ∧
    subDays ⟨2024, 3, 15⟩ 29 = ⟨2024, 2, 15⟩ ∧
    (get_filtered_sales_query ⟨2024, 3, 15⟩ (some "custom") (some none)
        (some (some ⟨2020, 1, 1⟩))).end_date = ⟨2020, 1, 1⟩ ∧
    (⟨2020, 1, 1⟩ : PyDate) ≠ ⟨2024, 3, 15⟩ := by
  decide

/-- C8 (amended): for a custom date-range request, each bound whose string
fails to parse surfaces a user-visible warning and falls back to its
default last-30-days value (start: today - 29 days, end: today) without
aborting the request; a bound that does parse is honoured, so only when
both bounds fail is the full default range used. -/
theorem C8_parse_failure_falls_back (today : PyDate)
    (startParam endParam : Option (Option PyDate))
    (h : startParam = some none ∨ endParam = some none) :
    (get_filtered_sales_query today (some "custom") startParam endParam).warnings ≠ [] ∧
    (startParam = some none →
      (get_filtered_sales_query today (some "custom") startParam endParam).start_date =
        subDays today 29) ∧
    (endParam = some none →
      (get_filtered_sales_query today (some "custom") startParam endParam).end_date =
        today) := by
  rcases startParam with _ | sp
  · rcases h with h | h
    · cases h
    · subst h
      simp [get_filtered_sales_query, resolvePeriod_custom]
  · rcases sp with _ | d
    · rcases endParam with _ | ep
      · simp [get_filtered_sales_query, resolvePeriod_custom]
      · rcases ep with _ | d2 <;> simp [get_filtered_sales_query, resolvePeriod_custom]
    · rcases h with h | h
      · simp at h
      · subst h
        simp [get_filtered_sales_query, resolvePeriod_custom]

/-- C8 witness: with today = 2024-03-15 and both bounds unparseable, the
request warns and uses the full default range [2024-02-15, 2024-03-15]. -/
theorem C8_parse_failure_falls_back_witness :
    (get_filtered_sales_query ⟨2024, 3, 15⟩ (some "custom") (some none)
        (some none)).warnings ≠ [] ∧
    (get_filtered_sales_query ⟨2024, 3, 15⟩ (some "custom") (some none)
        (some none)).start_date = subDays ⟨2024, 3, 15⟩ 29 ∧
    (get_filtered_sales_query ⟨2024, 3, 15⟩ (some "custom") (some none)
        (some none)).end_date = ⟨2024, 3, 15⟩ := by
  have h := C8_parse_failure_falls_back ⟨2024, 3, 15⟩ (some none) (some none)
    (Or.inl rfl)
  exact ⟨h.1, h.2.1 rfl, h.2.2 rfl⟩

/-- The Boolean filter of the barcode query agrees with `barcodeMatch`. -/
theorem barcodeMatch_eq_true_iff (b : String) (p : Product) :
    (p.barcode == some b && p.is_active && decide (0 < p.stock_quantity)) = true ↔
      barcodeMatch b p := by
  simp [barcodeMatch, Bool.and_eq_true, and_assoc]

/-- C9: for every nonempty barcode string, the lookup endpoint answers with
the JSON payload {id, name, price, stock_quantity, barcode} of a matching
product exactly when an active product with positive stock carries that
barcode, and with the structured 404 error otherwise (in particular when
the product with that barcode is inactive or out of stock). -/
theorem C9_barcode_lookup (db : List Product) (b : String) (hb : b ≠ "") :
    ((∃ p ∈ db, barcodeMatch b p) →
      ∃ p ∈ db, barcodeMatch b p ∧
        get_product_by_barcode db (some b) =
          .success p.id p.name p.price p.stock_quantity b) ∧
    ((¬ ∃ p ∈ db, barcodeMatch b p) →
      get_product_by_barcode db (some b) =
        .err 404 "Product not found or out of stock.") := by
  cases hfind : db.find? (fun p =>
      p.barcode == some b && p.is_active && decide (0 < p.stock_quantity)) with
  | some p =>
    have hmem := List.mem_of_find?_eq_some hfind
    have hpred := List.find?_some hfind
    have hmatch : barcodeMatch b p := (barcodeMatch_eq_true_iff b p).mp hpred
    constructor
    · intro _
      exact ⟨p, hmem, hmatch, by simp [get_product_by_barcode, hb, hfind]⟩
    · intro hnone
      exact absurd ⟨p, hmem, hmatch⟩ hnone
  | none =>
    constructor
    · rintro ⟨p, hmem, hmatch⟩
      have hfalse := List.find?_eq_none.mp hfind p hmem
      exact absurd ((barcodeMatch_eq_true_iff b p).mpr hmatch) hfalse
    · intro _
      simp [get_product_by_barcode, hb, hfind]

/-- C9 witness: an active product with stock 10 and barcode ABC123 is found
and returned as the success payload. -/
theorem C9_barcode_lookup_witness :
    ∃ p ∈ [(⟨1, "P", 1000, 10, true, some "ABC123"⟩ : Product)],
      barcodeMatch "ABC123" p ∧
      get_product_by_barcode [⟨1, "P", 1000, 10, true, some "ABC123"⟩]
          (some "ABC123") =
        .success p.id p.name p.price p.stock_quantity "ABC123" :=
  (C9_barcode_lookup [⟨1, "P", 1000, 10, true, some "ABC123"⟩] "ABC123"
      (by decide)).1
    ⟨⟨1, "P", 1000, 10, true, some "ABC123"⟩, by simp,
      ⟨rfl, rfl, by norm_num⟩⟩

/-- C10: `SaleItem.save` substitutes the product's current price whenever
the given unit price is unset (`None`) or zero, computing the subtotal from
that substituted price; consequently a saved line's unit price can only be
zero when the product's own price is zero. -/
theorem C10_zero_unit_price_replaced (given : Option ℚ) (productPrice : ℚ)
    (quantity : Int) :
    ((given = none ∨ given = some 0) →
      saleItemResolveUnitPrice given productPrice = productPrice ∧
      saleItemSubtotal given productPrice quantity = quantity * productPrice) ∧
    (productPrice ≠ 0 → saleItemResolveUnitPrice given productPrice ≠ 0) := by
  constructor
  · rintro (rfl | rfl) <;> simp [saleItemResolveUnitPrice, saleItemSubtotal]
  · intro hp
    rcases given with _ | u
    · simpa [saleItemResolveUnitPrice] using hp
    · by_cases hu : u = 0
      · simpa [saleItemResolveUnitPrice, hu] using hp
      · simp [saleItemResolveUnitPrice, hu]

/-- C10 witness: a line saved with unit price 0 on a product priced 5 gets
unit price 5, subtotal 3 × 5, and a nonzero recorded unit price. -/
theorem C10_zero_unit_price_replaced_witness :
    saleItemResolveUnitPrice (some 0) 5 = 5 ∧
    saleItemSubtotal (some 0) 5 3 = 3 * 5 ∧
    saleItemResolveUnitPrice (some 0) 5 ≠ 0 := by
  have h := C10_zero_unit_price_replaced (some 0) 5 3
  exact ⟨(h.1 (Or.inr rfl)).1, (h.1 (Or.inr rfl)).2, h.2 (by norm_num)⟩
